import Mathlib

/-!
Shallow embedding of the Task-Tracker REST API core (ownership-scoped CRUD
authorization) and proofs about it.

Sources embedded:
- src/backend/src/middleware/auth.middleware.ts  (userAuthenticationMiddleware)
- src/backend/src/controllers/task.controller.ts (createTask, getTasks,
  getTaskById, updateTaskById)
- src/backend/src/controllers/project.controller.ts (getProjects)
- src/unnamed/part_003 (project controller: getProjectById, updateProjectById)
- src/backend/src/controllers/auth.controller.ts (signUp)
- src/backend/src/models/user.model.ts (UserSchema pre-save hook, validation)
- src/backend/src/models/task.model.ts, project.model.ts (schemas)
- src/backend/src/routes/project.route.ts, src/unnamed/part_000 (task route),
  src/backend/src/routes/auth.route.ts (route tables / middleware wiring)
- src/backend/src/config/env.config.ts, database.config, src/backend/src/index.ts
  (startup)

Modelling conventions:
- Express handlers can write several responses when a branch forgets `return`;
  a handler result therefore carries the LIST of responses it attempted to
  write, in order.  Only the first one actually reaches the client (writing a
  second response after headers are sent throws, and the throw lands in the
  handler's catch / Express's default error handler, which cannot write once
  headers are out).
- `next(error)` is recorded as a Boolean flag on the result.
- Mongo ObjectIds are modelled as `String` (the controllers compare them after
  `.toString()` anyway).
- JS string truthiness: `undefined` and `""` are falsy; this is `truthy` below.
- The jsonwebtoken library is external; a bearer token is modelled abstractly
  as either verifying to a userId or failing with one of the library's three
  failure kinds, whose `error.message` strings are the library's real ones.
- bcrypt is external; a digest is modelled as an opaque constructor applied to
  a salt and the hashed input, so that re-hashing is observable.
-/

namespace TaskTracker

/-- JS truthiness of an optional string: `undefined`/missing and `""` are falsy. -/
def truthy : Option String → Bool
  | none => false
  | some s => s ≠ ""

/-- Task status enumeration from task.model.ts (`enum: ['todo','in-progress','completed']`). -/
inductive TStatus
  | todo
  | inProgress
  | completed
deriving DecidableEq

/-- Casting of a request-body status string to the schema enumeration. -/
def statusOfString : String → Option TStatus
  | "todo" => some TStatus.todo
  | "in-progress" => some TStatus.inProgress
  | "completed" => some TStatus.completed
  | _ => none

/-- A stored password value: either still plaintext or a bcrypt digest of an
inner value with a per-call salt (bcrypt.hash(value, salt) in user.model.ts). -/
inductive StoredPw
  | plain (s : String)
  | hashed (salt : Nat) (inner : StoredPw)
deriving DecidableEq

/-- UserSchema.pre('save') hook from user.model.ts lines 136-144.  The guard
`if (!this.isModified('password')) { next(); }` calls next() but does NOT
return, so execution falls through and the hash is recomputed unconditionally. -/
def preSaveHook (isModifiedPassword : Bool) (salt : Nat) (password : StoredPw) : StoredPw :=
  -- `if (!this.isModified('password')) { next(); }` : no return, falls through
  let _ := isModifiedPassword
  StoredPw.hashed salt password

/-- User document (user.model.ts). -/
structure UserDoc where
  id : String
  name : String
  email : String
  password : StoredPw
  country : String
deriving DecidableEq

/-- Project document (project.model.ts): title, description, owning user ref. -/
structure Project where
  id : String
  title : String
  description : String
  user : String
deriving DecidableEq

/-- Task document (task.model.ts): title, description, status, project ref,
owning user ref, optional completion timestamp. -/
structure Task where
  id : String
  title : String
  description : String
  status : TStatus
  project : String
  user : String
  completedAt : Option Nat
deriving DecidableEq

/-- The backing document store: the three collections. -/
structure Store where
  users : List UserDoc
  projects : List Project
  tasks : List Task
deriving DecidableEq

/-- Response `data` payload variants used by the embedded controllers. -/
inductive Data
  | null
  | task (t : Task)
  | tasks (ts : List Task)
  | project (p : Project)
  | optProject (p : Option Project)
  | projects (ps : List Project)
  | newUser (id name email country : String)
deriving DecidableEq

/-- A JSON response as the controllers shape it:
`{ success, message?, error?, data? }` plus the HTTP status code. -/
structure Resp where
  status : Nat
  success : Bool
  error : Option String
  message : Option String
  data : Data
deriving DecidableEq

/-- Error response with an `error` field (res.status(s).json({success:false,error})). -/
def errResp (s : Nat) (e : String) : Resp :=
  ⟨s, false, some e, none, Data.null⟩

/-- Success response with a `message` and a payload. -/
def okResp (s : Nat) (m : String) (d : Data) : Resp :=
  ⟨s, true, none, some m, d⟩

/-- Result of running a handler: the responses it attempted to write in order
(only the head reaches the client), the store afterwards, and whether
`next(error)` fired. -/
structure HResult where
  resps : List Resp
  store : Store
  nextErr : Bool
deriving DecidableEq

/-- The three token-verification failure kinds of the jsonwebtoken library. -/
inductive VerifyErr
  | malformed
  | badSignature
  | expired
deriving DecidableEq

/-- The `error.message` the jsonwebtoken library reports for each failure kind. -/
def errMessage : VerifyErr → String
  | VerifyErr.malformed => "jwt malformed"
  | VerifyErr.badSignature => "invalid signature"
  | VerifyErr.expired => "jwt expired"

/-- A bearer token, abstracted by its verification outcome: it either verifies
to the embedded userId or fails with one of the library's failure kinds. -/
inductive Token
  | ok (userId : String)
  | bad (e : VerifyErr)
deriving DecidableEq

/-- jwt.verify(token, JWT_SECRET): returns the payload or throws a typed error. -/
def jwtVerify : Token → Except VerifyErr String
  | Token.ok uid => Except.ok uid
  | Token.bad e => Except.error e

/-- The Authorization header of an inbound request, abstracted by the
middleware's case split: absent, present but not `Bearer ...`, or a bearer token. -/
inductive AuthHeader
  | missing
  | notBearer (raw : String)
  | bearer (t : Token)
deriving DecidableEq

/-- Middleware outcome: responses written, the `req.user` id attached (none when
nothing — or null — was attached), and whether next() was called. -/
structure MwOut where
  resps : List Resp
  user : Option String
  proceeded : Bool
deriving DecidableEq

/-- userAuthenticationMiddleware from auth.middleware.ts lines 45-78.
Note the `if (!user)` branch (lines 62-67): it writes the 401 but does NOT
return, so `req.user = user as IUser` assigns null and next() still runs. -/
def userAuthenticationMiddleware (st : Store) (h : AuthHeader) : MwOut :=
  match h with
  | AuthHeader.missing =>
    ⟨[⟨401, false, none, some "Unauthorized", Data.null⟩], none, false⟩
  | AuthHeader.notBearer _ =>
    ⟨[⟨401, false, none, some "Unauthorized", Data.null⟩], none, false⟩
  | AuthHeader.bearer t =>
    match jwtVerify t with
    | Except.error e =>
      -- jwt.verify threw; the catch block echoes error.message into the body
      ⟨[errResp 401 ("Unauthorized: " ++ errMessage e)], none, false⟩
    | Except.ok uid =>
      match st.users.find? (fun u => u.id == uid) with
      | none =>
        -- 401 written, but no return: req.user becomes null and next() runs
        ⟨[errResp 401 "Unauthorized: No user found with that token."], none, true⟩
      | some u => ⟨[], some u.id, true⟩

/-- Request body of POST /tasks/create-task. -/
structure TaskBody where
  title : Option String
  description : Option String
  status : Option String
  projectId : Option String
deriving DecidableEq

/-- createTask from task.controller.ts lines 50-96.  All its early-exit
branches do return.  TaskModel.create receives title/description/status/
project/user; the referenced project's existence is never checked (the schema
ref is not a foreign-key constraint).  `freshId` is the store-generated id. -/
def createTask (st : Store) (user? : Option String) (b : TaskBody) (freshId : String) :
    HResult :=
  if ¬ (truthy b.title ∧ truthy b.description ∧ truthy b.status ∧ truthy b.projectId) then
    ⟨[errResp 400 "Missing required field."], st, false⟩
  else if ¬ truthy user? then
    ⟨[errResp 401 "User not authenticated"], st, false⟩
  else
    match statusOfString (b.status.getD "") with
    | none =>
      -- schema enum validation fails, TaskModel.create throws → next(error)
      ⟨[], st, true⟩
    | some stat =>
      let newTask : Task :=
        ⟨freshId, b.title.getD "", b.description.getD "", stat,
          b.projectId.getD "", user?.getD "", none⟩
      -- `if (!newTask)`: a created document is truthy, so that branch is dead
      ⟨[okResp 201 "Task created successfully." (Data.task newTask)],
        { st with tasks := st.tasks ++ [newTask] }, false⟩

/-- Whether a character counts as non-whitespace for the email pattern (JS \S). -/
def nonSpace (c : Char) : Bool := ¬ c.isWhitespace

/-- Executable model of the `trim: true` schema setter (String.prototype.trim). -/
def jsTrim (s : String) : String :=
  String.mk (((s.toList.dropWhile Char.isWhitespace).reverse.dropWhile Char.isWhitespace).reverse)

/-- Executable model of the `lowercase: true` schema setter (toLowerCase). -/
def jsLower (s : String) : String := String.mk (s.toList.map Char.toLower)

/-- Unanchored match of the UserSchema email pattern /\S+@\S+\.\S+/:
some '@' preceded by a non-space, followed by one-or-more non-spaces, a '.',
and a non-space. -/
def emailLike (s : String) : Bool :=
  let cs := s.toList
  let n := cs.length
  (List.range n).any fun a =>
    cs.getD a ' ' == '@' && decide (1 ≤ a) && nonSpace (cs.getD (a - 1) ' ') &&
    ((List.range n).any fun b =>
      decide (a + 2 ≤ b) && cs.getD b ' ' == '.' &&
      ((List.range (b - (a + 1))).all fun k => nonSpace (cs.getD (a + 1 + k) ' ')) &&
      decide (b + 1 < n) && nonSpace (cs.getD (b + 1) ' '))

/-- User.create per user.model.ts: schema setters (trim on name/email,
lowercase on email), validators (name 5-50 chars, email pattern, password at
least 6 chars), the unique email index, and the pre-save hook hashing the new
password.  Fails (throws in JS) with a validation or duplicate-key error. -/
def userCreate (st : Store) (freshId : String) (salt : Nat)
    (name email password country : String) : Except String (UserDoc × Store) :=
  if ¬ (5 ≤ (jsTrim name).length ∧ (jsTrim name).length ≤ 50) then
    Except.error "User validation failed: name"
  else if ¬ emailLike (jsLower (jsTrim email)) then
    Except.error "Please enter a valid email address"
  else if password.length < 6 then
    Except.error "User validation failed: password"
  else if st.users.any (fun u => u.email == jsLower (jsTrim email)) then
    Except.error "E11000 duplicate key error"
  else
    let u : UserDoc :=
      ⟨freshId, jsTrim name, jsLower (jsTrim email),
        preSaveHook true salt (StoredPw.plain password), country⟩
    Except.ok (u, { st with users := st.users ++ [u] })

/-- Request body of POST /auth/sign-up. -/
structure SignUpBody where
  name : Option String
  email : Option String
  password : Option String
  country : Option String
deriving DecidableEq

/-- signUp from auth.controller.ts lines 21-65.  Neither the missing-field 400
nor the duplicate-email 400 returns, so User.create is always attempted; a
throw there (e.g. the duplicate-key error) lands in the catch → next(error).
On a successful create, getSignedJwtToken() throws when the signing secret is
absent, also landing in next(error) after the user was already persisted. -/
def signUp (st : Store) (b : SignUpBody) (freshId : String) (salt : Nat)
    (secret : Option String) : HResult :=
  let r1 : List Resp :=
    if ¬ (truthy b.name ∧ truthy b.email ∧ truthy b.password ∧ truthy b.country) then
      [errResp 400 "Name or email or password or country is missing"]
    else []
  -- `User.findOne({email})` uses the raw body value against stored emails
  let existingUser := st.users.find? (fun u => u.email == b.email.getD "")
  let r2 : List Resp :=
    if existingUser.isSome then [errResp 400 "User already exists"] else []
  match userCreate st freshId salt (b.name.getD "") (b.email.getD "")
      (b.password.getD "") (b.country.getD "") with
  | Except.error _ => ⟨r1 ++ r2, st, true⟩
  | Except.ok (u, st') =>
    match secret with
    | none => ⟨r1 ++ r2, st', true⟩
    | some _ =>
      ⟨r1 ++ r2 ++
        [⟨201, true, none, none, Data.newUser u.id u.name u.email u.country⟩],
        st', false⟩

/-- Process environment as read by env.config.ts; dotenv yields optional strings. -/
structure Env where
  PORT : Option String
  NODE_ENV : Option String
  MONGO_DB_URL : Option String
  MONGO_DB_USER : Option String
  MONGO_DB_PASSWORD : Option String
  JWT_SECRET : Option String
deriving DecidableEq

/-- Outcome of running the startup IIFE of index.ts. -/
inductive StartupResult
  | moduleLoadError (msg : String)
  | exited (code : Nat)
  | started
deriving DecidableEq

/-- Startup per index.ts lines 9-61 together with database.config: importing
database.config throws when MONGO_DB_URL is absent; when the database is
unreachable, databaseConnection's own catch console.error's and calls
process.exit(1) (so the IIFE's try/catch never sees a rejection and app.listen
never runs); only when the connection succeeds is the Express app built and
app.listen run.  Nothing on any of these paths reads or checks JWT_SECRET
(env.config.ts lines 1-10 do not even export it). -/
def startup (env : Env) (dbReachable : Bool) : StartupResult :=
  if ¬ truthy env.MONGO_DB_URL then
    StartupResult.moduleLoadError
      "Please specify the mongoDB URI environment variable inside .env<development/production>.local"
  else if ¬ dbReachable then
    StartupResult.exited 1
  else
    StartupResult.started

/-- getSignedJwtToken from user.model.ts lines 163-173: jwt.sign with the
configured secret; the jsonwebtoken library throws when the secret is
undefined, so no token can be issued without it. -/
def getSignedJwtToken (secret : Option String) (uid : String) : Except String Token :=
  match secret with
  | none => Except.error "secretOrPrivateKey must have a value"
  | some _ => Except.ok (Token.ok uid)

/-- The empty store. -/
def emptyStore : Store := ⟨[], [], []⟩

/-- A registered user with id A. -/
def alice : UserDoc :=
  ⟨"A", "Alice Smith", "alice@example.com", StoredPw.hashed 1 (StoredPw.plain "secret1"), "US"⟩

/-- A store holding only `alice`. -/
def userStore : Store := ⟨[alice], [], []⟩

/-- A digest is never equal to the value it hashes (the digest constructor is
strictly larger than its argument). -/
theorem hashed_ne (p : StoredPw) : ∀ s : Nat, StoredPw.hashed s p ≠ p := by
  induction p with
  | plain t => intro s h; cases h
  | hashed s' p' ih =>
    intro s h
    injection h with h1 h2
    exact ih s' h2

/-- C7: the pre-save hook recomputes the digest even when the password field
was NOT modified — the `!isModified` guard calls next() without returning, so
the stored digest is re-hashed on every save, never left unchanged. -/
theorem preSave_rehashes_unmodified_password (salt : Nat) (pw : StoredPw) :
    preSaveHook false salt pw = StoredPw.hashed salt pw ∧
    StoredPw.hashed salt pw ≠ pw :=
  ⟨rfl, hashed_ne pw salt⟩

/-- C8 counterexample: with the database URL set and the database reachable
but the signing secret absent from the environment, startup still succeeds —
the process starts, refuting "the process must not start". -/
theorem startup_without_secret_cex :
    startup ⟨some "3000", some "development",
        some "mongodb://localhost:27017/db", none, none, none⟩ true =
      StartupResult.started := by
  rfl

/-- C8 amended: neither startup path consults the signing secret — a missing
MONGO_DB_URL is a fatal module-load error and an unreachable database makes
databaseConnection's catch call process.exit(1), but with the URL set and the
database reachable the process starts even when JWT_SECRET is absent; issuing
a token then fails at call time inside jwt.sign. -/
theorem startup_ignores_signing_secret (env : Env) (uid : String)
    (hdb : truthy env.MONGO_DB_URL = true) (hsec : env.JWT_SECRET = none) :
    startup env true = StartupResult.started ∧
    startup env false = StartupResult.exited 1 ∧
    getSignedJwtToken env.JWT_SECRET uid =
      Except.error "secretOrPrivateKey must have a value" := by
  refine ⟨?_, ?_, ?_⟩
  · unfold startup
    simp [hdb]
  · unfold startup
    simp [hdb]
  · rw [hsec]
    rfl

/-- Witness for C8 amended: a concrete environment with the database URL set
and no signing secret. -/
theorem startup_ignores_signing_secret_witness :
    startup ⟨some "3000", none, some "mongodb://localhost:27017/db",
        none, none, none⟩ true = StartupResult.started ∧
    startup ⟨some "3000", none, some "mongodb://localhost:27017/db",
        none, none, none⟩ false = StartupResult.exited 1 ∧
    getSignedJwtToken none "A" =
      Except.error "secretOrPrivateKey must have a value" :=
  startup_ignores_signing_secret
    ⟨some "3000", none, some "mongodb://localhost:27017/db", none, none, none⟩
    "A" (by decide) rfl

/-- C4 counterexample: a malformed token and an expired token both yield a 401,
but the response bodies differ — the verification failure kind is visible in
the `error` string, refuting "which of the three verification failures
occurred is never exposed in the response body". -/
theorem verify_failure_bodies_differ_cex :
    (userAuthenticationMiddleware emptyStore
        (AuthHeader.bearer (Token.bad VerifyErr.malformed))).resps ≠
      (userAuthenticationMiddleware emptyStore
        (AuthHeader.bearer (Token.bad VerifyErr.expired))).resps ∧
    (userAuthenticationMiddleware emptyStore
        (AuthHeader.bearer (Token.bad VerifyErr.malformed))).resps.map Resp.status = [401] ∧
    (userAuthenticationMiddleware emptyStore
        (AuthHeader.bearer (Token.bad VerifyErr.expired))).resps.map Resp.status = [401] := by
  refine ⟨?_, rfl, rfl⟩
  decide

/-- C4 amended: every token-verification failure terminates the request with a
single 401 whose `error` string echoes the library's failure message — the
status is uniform but the internal reason is exposed in the body. -/
theorem verify_failure_single_401_echoes_reason (st : Store) (e : VerifyErr) :
    userAuthenticationMiddleware st (AuthHeader.bearer (Token.bad e)) =
      ⟨[errResp 401 ("Unauthorized: " ++ errMessage e)], none, false⟩ := by
  cases e <;> rfl

/-- User.create fails whenever the normalized email is already stored (or an
earlier validator rejects): in every case it throws rather than persist. -/
theorem userCreate_error_of_dup (st : Store) (f : String) (salt : Nat) (n e p c : String)
    (h : st.users.any (fun u => u.email == jsLower (jsTrim e)) = true) :
    ∃ msg, userCreate st f salt n e p c = Except.error msg := by
  unfold userCreate
  repeat' split
  all_goals exact ⟨_, rfl⟩

/-- C6: a sign-up whose email is already stored answers 400 "User already
exists" as its only response, persists nothing, and hands the duplicate-key
throw from the (still-attempted) User.create to next(error) — the 201 write is
never reached, so the handler produces exactly one response. -/
theorem signUp_duplicate_email_single_400 (st : Store) (b : SignUpBody)
    (freshId : String) (salt : Nat) (secret : Option String)
    (hfields : truthy b.name ∧ truthy b.email ∧ truthy b.password ∧ truthy b.country)
    (hdupRaw : (st.users.find? (fun u => u.email == b.email.getD "")).isSome = true)
    (hdupNorm : st.users.any (fun u => u.email == jsLower (jsTrim (b.email.getD ""))) = true) :
    signUp st b freshId salt secret = ⟨[errResp 400 "User already exists"], st, true⟩ := by
  obtain ⟨msg, hmsg⟩ :=
    userCreate_error_of_dup st freshId salt (b.name.getD "") (b.email.getD "")
      (b.password.getD "") (b.country.getD "") hdupNorm
  unfold signUp
  simp [hfields.1, hfields.2.1, hfields.2.2.1, hfields.2.2.2, hdupRaw, hmsg]

/-- Witness for C6: Alice is stored; a second sign-up with her email. -/
theorem signUp_duplicate_email_single_400_witness :
    signUp userStore
        ⟨some "Bob Jones", some "alice@example.com", some "hunter2", some "US"⟩
        "B2" 3 (some "topsecret") =
      ⟨[errResp 400 "User already exists"], userStore, true⟩ :=
  signUp_duplicate_email_single_400 userStore
    ⟨some "Bob Jones", some "alice@example.com", some "hunter2", some "US"⟩
    "B2" 3 (some "topsecret") (by decide) (by decide) (by decide)

/-- C10: an authenticated create-task with all four fields present succeeds
with 201 and stores the task, with the given projectId recorded as its project
reference — even under the hypothesis that no stored project has that id; the
controller and schema perform no existence or owner check on the reference. -/
theorem createTask_dangling_project_accepted (st : Store) (uid : String)
    (b : TaskBody) (freshId : String) (stat : TStatus)
    (hfields : truthy b.title ∧ truthy b.description ∧ truthy b.status ∧ truthy b.projectId)
    (huid : uid ≠ "")
    (hstat : statusOfString (b.status.getD "") = some stat)
    (hdangling : st.projects.find? (fun p => p.id == b.projectId.getD "") = none) :
    createTask st (some uid) b freshId =
      ⟨[okResp 201 "Task created successfully."
          (Data.task ⟨freshId, b.title.getD "", b.description.getD "", stat,
            b.projectId.getD "", uid, none⟩)],
        { st with tasks := st.tasks ++
            [⟨freshId, b.title.getD "", b.description.getD "", stat,
              b.projectId.getD "", uid, none⟩] },
        false⟩ ∧
    (⟨freshId, b.title.getD "", b.description.getD "", stat,
        b.projectId.getD "", uid, none⟩ : Task).project = b.projectId.getD "" := by
  constructor
  · have h4 : truthy (some uid) = true := by simp [truthy, huid]
    unfold createTask
    simp [hfields.1, hfields.2.1, hfields.2.2.1, hfields.2.2.2, h4, hstat]
  · rfl

/-- Witness for C10: creating a task against the empty store, whose projectId
"ghost" matches no stored project. -/
theorem createTask_dangling_project_accepted_witness :
    createTask emptyStore (some "A")
        ⟨some "Write report", some "Quarterly report", some "todo", some "ghost"⟩ "t9" =
      ⟨[okResp 201 "Task created successfully."
          (Data.task ⟨"t9", "Write report", "Quarterly report", TStatus.todo, "ghost", "A", none⟩)],
        { emptyStore with tasks :=
            emptyStore.tasks ++
              [⟨"t9", "Write report", "Quarterly report", TStatus.todo, "ghost", "A", none⟩] },
        false⟩ :=
  (createTask_dangling_project_accepted emptyStore "A"
    ⟨some "Write report", some "Quarterly report", some "todo", some "ghost"⟩
    "t9" TStatus.todo (by decide) (by decide) (by decide) (by decide)).1

end TaskTracker
